import Mathlib

/-!
Shallow embedding of the browser-environment classification module
(src/chunks/page.27005089.js): ordered OS rule tables, first-match
user-agent matching, OS version extractors, device-class predicates,
the memoization cache for isMobile/isDesktop, density predicates and
the viewport/breakpoint tracker.  JavaScript regexes are translated,
pattern by pattern, into executable decision functions over lists of
characters (case-insensitive tests lower-case the subject; `.` is any
non-newline character; leftmost match, greedy quantifiers with
backtracking where the pattern requires it).  JavaScript numbers that
feed only integer comparisons are Int; aspect ratio (a float in the
source) is modelled as a rational.
-/

namespace GailAlbert

/-- ASCII lower-casing, as String.prototype.toLowerCase acts on the
ASCII range (all patterns in the source are ASCII). -/
def toLowerChar (c : Char) : Char :=
  if 'A' ≤ c ∧ c ≤ 'Z' then Char.ofNat (c.toNat + 32) else c

/-- Lower-case a list of characters. -/
def lower (l : List Char) : List Char := l.map toLowerChar

/-- Does `needle` occur as a contiguous substring of `hay`?
Models JavaScript regex search for a literal, and `indexOf(x) > -1`. -/
def containsSub (hay needle : List Char) : Bool :=
  match hay with
  | [] => needle.isEmpty
  | _ :: t => needle.isPrefixOf hay || containsSub t needle

/-- Case-insensitive literal search of `needle` (given lower-case)
inside the user agent, modelling a `/literal/i` regex test. -/
def ciContains (ua : String) (needle : String) : Bool :=
  containsSub (lower ua.toList) needle.toList

/-- One-character regex atom: a literal, the `.` wildcard (any
character except newline), or a character class. -/
inductive PAtom where
  | lit (c : Char)
  | any
  | cls (cs : List Char)

/-- Does the atom match one character? -/
def atomMatch : PAtom → Char → Bool
  | .lit d, c => c == d
  | .any, c => c != '\n'
  | .cls cs, c => cs.contains c

/-- Match a fixed-length atom sequence at the head of the subject. -/
def patMatchAt : List PAtom → List Char → Bool
  | [], _ => true
  | _ :: _, [] => false
  | a :: p, c :: l => atomMatch a c && patMatchAt p l

/-- Regex-style search: does the atom sequence match at some
position of the subject (leftmost search)? -/
def patSearch (p : List PAtom) : List Char → Bool
  | [] => patMatchAt p []
  | c :: t => patMatchAt p (c :: t) || patSearch p t

/-- Turn a literal string into an atom sequence. -/
def lits (s : String) : List PAtom := s.toList.map PAtom.lit

/-- Case-insensitive search for an atom pattern (atoms given
lower-case) in the user agent. -/
def ciSearchPat (ua : String) (p : List PAtom) : Bool :=
  patSearch p (lower ua.toList)

/-- Is the (already lower-cased) character an ASCII letter?  With the
`/i` flag, the class `[A-Z]` matches both cases; after lower-casing
the subject this is exactly `a`-`z`. -/
def isLowerAlpha (c : Char) : Bool := 'a' ≤ c && c ≤ 'z'

/-- `KF[A-Z]{2,}` at the head of the (lower-cased) subject: literal
`kf` followed by at least two letters. -/
def kfLetters : List Char → Bool
  | 'k' :: 'f' :: a :: b :: _ => isLowerAlpha a && isLowerAlpha b
  | _ => false

/-- `.+KF[A-Z]{2,}`: consume one or more non-newline characters, then
the `KF..` token. -/
def dotPlusKF : List Char → Bool
  | [] => false
  | c :: r => (c != '\n') && (kfLetters r || dotPlusKF r)

/-- `(?:Android|Linux).+KF[A-Z]{2,}` searched anywhere in the
(lower-cased) subject — the third alternative of the Fire OS rule. -/
def androidLinuxKF : List Char → Bool
  | [] => false
  | c :: t =>
    ("android".toList.isPrefixOf (c :: t) && dotPlusKF (List.drop 7 (c :: t)))
      || ("linux".toList.isPrefixOf (c :: t) && dotPlusKF (List.drop 5 (c :: t)))
      || androidLinuxKF t

/-! ### The ordered OS rule table (`commonOperatingSystems`) -/

/-- `/iP(hone|od|ad)/i` -/
def iOSPat (ua : String) : Bool :=
  ciContains ua "iphone" || ciContains ua "ipod" || ciContains ua "ipad"

/-- `/Android/i` -/
def androidPat (ua : String) : Bool := ciContains ua "android"

/-- `/BlackBerry|BB10/i` -/
def blackBerryPat (ua : String) : Bool :=
  ciContains ua "blackberry" || ciContains ua "bb10"

/-- `/IEMobile/i` -/
def windowsMobilePat (ua : String) : Bool := ciContains ua "iemobile"

/-- `/Kindle Fire|Silk|(?:Android|Linux).+KF[A-Z]{2,}/i` -/
def fireOSPat (ua : String) : Bool :=
  ciContains ua "kindle fire" || ciContains ua "silk"
    || androidLinuxKF (lower ua.toList)

/-- `/Kindle/i` -/
def amazonOSPat (ua : String) : Bool := ciContains ua "kindle"

/-- `/Win16/i` -/
def windows311Pat (ua : String) : Bool := ciContains ua "win16"

/-- `/(Windows 95)|(Win95)|(Windows_95)/i` -/
def windows95Pat (ua : String) : Bool :=
  ciContains ua "windows 95" || ciContains ua "win95" || ciContains ua "windows_95"

/-- `/(Windows 98)|(Win98)/i` -/
def windows98Pat (ua : String) : Bool :=
  ciContains ua "windows 98" || ciContains ua "win98"

/-- `Windows NT maj<any>min` with the unescaped regex dot preserved as
a wildcard, e.g. `/(Windows NT 5.0)/i`. -/
def ntDotPat (maj : String) (minc : Char) : List PAtom :=
  lits ("windows nt " ++ maj) ++ [PAtom.any, PAtom.lit minc]

/-- `/(Windows NT 5.0)|(Windows 2000)/i` -/
def windows2000Pat (ua : String) : Bool :=
  ciSearchPat ua (ntDotPat "5" '0') || ciContains ua "windows 2000"

/-- `/(Windows NT 5.1)|(Windows XP)/i` -/
def windowsXPPat (ua : String) : Bool :=
  ciSearchPat ua (ntDotPat "5" '1') || ciContains ua "windows xp"

/-- `/(Windows NT 5.2)/i` -/
def windowsServer2003Pat (ua : String) : Bool := ciSearchPat ua (ntDotPat "5" '2')

/-- `/(Windows NT 6.0)/i` -/
def windowsVistaPat (ua : String) : Bool := ciSearchPat ua (ntDotPat "6" '0')

/-- `/(Windows NT 6.1)/i` -/
def windows7Pat (ua : String) : Bool := ciSearchPat ua (ntDotPat "6" '1')

/-- `/(Windows NT 6.2)/i` -/
def windows8Pat (ua : String) : Bool := ciSearchPat ua (ntDotPat "6" '2')

/-- `/(Windows NT 6.3)/i` -/
def windows81Pat (ua : String) : Bool := ciSearchPat ua (ntDotPat "6" '3')

/-- `/(Windows NT 10.0)/i` -/
def windows10Pat (ua : String) : Bool := ciSearchPat ua (ntDotPat "10" '0')

/-- `/Windows ME/i` -/
def windowsMEPat (ua : String) : Bool := ciContains ua "windows me"

/-- `/OpenBSD/i` -/
def openBSDPat (ua : String) : Bool := ciContains ua "openbsd"

/-- `/FreeBSD/i` -/
def freeBSDPat (ua : String) : Bool := ciContains ua "freebsd"

/-- `/SunOS/i` -/
def sunOSPat (ua : String) : Bool := ciContains ua "sunos"

/-- `/CrOS/i` -/
def chromeOSPat (ua : String) : Bool := ciContains ua "cros"

/-- `/webOS/i` -/
def webOSPat (ua : String) : Bool := ciContains ua "webos"

/-- `/(Linux)|(X11)/i` -/
def linuxPat (ua : String) : Bool :=
  ciContains ua "linux" || ciContains ua "x11"

/-- `/(Mac_PowerPC)|(Macintosh)/i` -/
def macOSPat (ua : String) : Bool :=
  ciContains ua "mac_powerpc" || ciContains ua "macintosh"

/-- The ordered OS rule table, in source order. -/
def commonOperatingSystems : List (String × (String → Bool)) :=
  [("iOS", iOSPat),
   ("Android", androidPat),
   ("BlackBerry OS", blackBerryPat),
   ("Windows Mobile", windowsMobilePat),
   ("Fire OS", fireOSPat),
   ("Amazon OS", amazonOSPat),
   ("Windows 3.11", windows311Pat),
   ("Windows 95", windows95Pat),
   ("Windows 98", windows98Pat),
   ("Windows 2000", windows2000Pat),
   ("Windows XP", windowsXPPat),
   ("Windows Server 2003", windowsServer2003Pat),
   ("Windows Vista", windowsVistaPat),
   ("Windows 7", windows7Pat),
   ("Windows 8", windows8Pat),
   ("Windows 8.1", windows81Pat),
   ("Windows 10", windows10Pat),
   ("Windows ME", windowsMEPat),
   ("Open BSD", openBSDPat),
   ("Free BSD", freeBSDPat),
   ("Sun OS", sunOSPat),
   ("Chrome OS", chromeOSPat),
   ("webOS", webOSPat),
   ("Linux", linuxPat),
   ("Mac OS", macOSPat)]

/-- `testUserAgent(list, ua)` specialised to the label it returns:
walk the ordered rules and return the first matching label, or
no-match (the source returns `false`, destructured to `undefined`). -/
def testUserAgent (list : List (String × (String → Bool))) (ua : String) : Option String :=
  match list with
  | [] => none
  | (name, pat) :: rest => if pat ua then some name else testUserAgent rest ua

/-! ### Capturing match machinery for the version tables -/

/-- A single-capture regex of fixed shape: a literal/atom prelude
followed by one parenthesised group of atoms, as in the
`androidVersions` table (`/android ([2,3])/i` and friends). -/
structure CapturePattern where
  pre : List PAtom
  grp : List PAtom

/-- Case-insensitive atom match that keeps the subject's original
characters (JavaScript captures report the original case). -/
def atomMatchCI (a : PAtom) (c : Char) : Bool := atomMatch a (toLowerChar c)

/-- Match a fixed-length atom sequence case-insensitively at the head
of the subject, returning the matched characters and the rest. -/
def capMatchAt : List PAtom → List Char → Option (List Char × List Char)
  | [], l => some ([], l)
  | _ :: _, [] => none
  | a :: p, c :: l =>
    if atomMatchCI a c then
      (capMatchAt p l).map (fun m => (c :: m.1, m.2))
    else none

/-- Try a capture pattern at the head of the subject; on success
return the group's captured characters. -/
def capTryAt (cp : CapturePattern) (l : List Char) : Option (List Char) :=
  (capMatchAt cp.pre l).bind (fun r => (capMatchAt cp.grp r.2).map (fun m => m.1))

/-- Leftmost search of a capture pattern in the subject. -/
def capSearch (cp : CapturePattern) : List Char → Option (List Char)
  | [] => capTryAt cp []
  | c :: t =>
    match capTryAt cp (c :: t) with
    | some cap => some cap
    | none => capSearch cp t

/-- The `androidVersions` table, in source order.  Every entry has
exactly one capture group, so the source's `match.length === 2` test
always holds on a match.  Unescaped regex dots are wildcards and the
bracket groups are character classes (`[2,3]` is the set 2, comma, 3;
`[4.[1|2|3]]` makes the pipes class members). -/
def androidVersions : List (String × CapturePattern) :=
  [("Legacy", ⟨lits "android ", [PAtom.cls ['2', ',', '3']]⟩),
   ("Ice Cream Sandwich", ⟨lits "android ", [PAtom.lit '4', PAtom.any, PAtom.lit '0']⟩),
   ("Jellybean", ⟨lits "android ", [PAtom.lit '4', PAtom.any, PAtom.cls ['1', '|', '2', '3']]⟩),
   ("KitKat", ⟨lits "android ", [PAtom.lit '4', PAtom.any, PAtom.lit '4']⟩),
   ("Lollipop", ⟨lits "android ", [PAtom.lit '5']⟩),
   ("Marshmallow", ⟨lits "android ", [PAtom.lit '6']⟩),
   ("Nougat", ⟨lits "android ", [PAtom.lit '7', PAtom.any, PAtom.cls ['0', ',', '1']]⟩),
   ("Oreo", ⟨lits "android ", [PAtom.lit '8', PAtom.any, PAtom.cls ['0', ',', '1']]⟩),
   ("Pie", ⟨lits "android ", [PAtom.lit '9']⟩),
   ("Q", ⟨lits "android ", [PAtom.lit '1', PAtom.lit '0']⟩)]

/-- `testUserAgent` applied to the capturing `androidVersions` table:
first listed rule that matches wins; the capture is reported. -/
def testUserAgentCaptures (list : List (String × CapturePattern)) (ua : String) :
    Option (String × List Char) :=
  match list with
  | [] => none
  | (name, cp) :: rest =>
    match capSearch cp ua.toList with
    | some cap => some (name, cap)
    | none => testUserAgentCaptures rest ua

/-- `operatingSystemVersions.android`: the marketing name, prefixed by
the captured release number when present (always, on a match). -/
def androidVersion (ua : String) : String :=
  match testUserAgentCaptures androidVersions ua with
  | none => ""
  | some nc => String.mk nc.2 ++ " (" ++ nc.1 ++ ")"

/-! ### The iOS / Chrome OS / Mac OS version extractors -/

/-- Longest digit prefix (`\d+`, greedy) and the rest. -/
def takeDigits : List Char → List Char × List Char
  | [] => ([], [])
  | c :: t =>
    if c.isDigit then (c :: (takeDigits t).1, (takeDigits t).2) else ([], c :: t)

/-- Structural worker for `(?:_\d+)*`: the fuel only bounds the
number of underscore groups; every group consumes at least two
characters, so fuel equal to the subject length never runs out. -/
def underscoreDigitsGo : Nat → List Char → List Char
  | 0, _ => []
  | fuel + 1, l =>
    match l with
    | '_' :: t =>
      if (takeDigits t).1.isEmpty then []
      else '_' :: ((takeDigits t).1 ++ underscoreDigitsGo fuel (takeDigits t).2)
    | _ => []

/-- `(?:_\d+)*`, greedy: the maximal run of underscore-digit groups. -/
def underscoreDigits (l : List Char) : List Char := underscoreDigitsGo l.length l

/-- `\d+(?:_\d+)*`: at least one digit, then underscore groups. -/
def versionCapture (l : List Char) : Option (List Char) :=
  if (takeDigits l).1.isEmpty then none
  else some ((takeDigits l).1 ++ underscoreDigits (takeDigits l).2)

/-- Replace every underscore by a dot, as
`match[1].split('_').join('.')` does. -/
def underscoresToDots (l : List Char) : List Char :=
  l.map (fun c => if c = '_' then '.' else c)

/-- After `CPU(?: iPhone)?`: match ` OS ` then the version capture. -/
def iosOsPart (l : List Char) : Option (List Char) :=
  if " OS ".toList.isPrefixOf l then versionCapture (l.drop 4) else none

/-- `(?: iPhone)? OS (\d+(?:_\d+)*)` with the greedy optional group:
try with ` iPhone` consumed first, then without. -/
def iosAfterCPU (l : List Char) : Option (List Char) :=
  match (if " iPhone".toList.isPrefixOf l then iosOsPart (l.drop 7) else none) with
  | some cap => some cap
  | none => iosOsPart l

/-- Leftmost search for `CPU(?: iPhone)? OS (\d+(?:_\d+)*)`
(case-sensitive, as the source regex has no `i` flag). -/
def iosScan : List Char → Option (List Char)
  | [] => none
  | c :: t =>
    match (if "CPU".toList.isPrefixOf (c :: t) then iosAfterCPU ((c :: t).drop 3) else none) with
    | some cap => some cap
    | none => iosScan t

/-- `operatingSystemVersions.ios`. -/
def iosVersion (ua : String) : String :=
  match iosScan ua.toList with
  | some cap => String.mk (underscoresToDots cap)
  | none => ""

/-- Longest `[0-9\.]*` prefix and the rest. -/
def takeDigitsDots : List Char → List Char × List Char
  | [] => ([], [])
  | c :: t =>
    if c.isDigit || c == '.' then
      (c :: (takeDigitsDots t).1, (takeDigitsDots t).2)
    else ([], c :: t)

/-- `x86_\d+` at the head of the subject; on success return the rest. -/
def crosArchX86 (l : List Char) : Option (List Char) :=
  if "x86_".toList.isPrefixOf l && !(takeDigits (l.drop 4)).1.isEmpty then
    some (takeDigits (l.drop 4)).2
  else none

/-- `(?:x86_\d+|armv7l)`, alternatives tried in order. -/
def crosArch (l : List Char) : Option (List Char) :=
  (crosArchX86 l).orElse
    (fun _ => if "armv7l".toList.isPrefixOf l then some (l.drop 6) else none)

/-- `\(X11; CrOS (?:x86_\d+|armv7l) ([0-9\.]*)\)` at the head. -/
def chromeAt (l : List Char) : Option (List Char) :=
  if "(X11; CrOS ".toList.isPrefixOf l then
    (crosArch (l.drop 11)).bind (fun r =>
      match r with
      | ' ' :: r1 =>
        if ")".toList.isPrefixOf (takeDigitsDots r1).2 then some (takeDigitsDots r1).1
        else none
      | _ => none)
  else none

/-- Leftmost search for the Chrome OS version pattern. -/
def chromeScan : List Char → Option (List Char)
  | [] => none
  | c :: t =>
    match chromeAt (c :: t) with
    | some cap => some cap
    | none => chromeScan t

/-- `operatingSystemVersions.chrome_os`. -/
def chromeOsVersion (ua : String) : String :=
  match chromeScan ua.toList with
  | some cap => String.mk cap
  | none => ""

/-- Longest run of `'0'` characters and the rest. -/
def takeZeros : List Char → List Char × List Char
  | [] => ([], [])
  | c :: t =>
    if c = '0' then ('0' :: (takeZeros t).1, (takeZeros t).2) else ([], c :: t)

/-- First group alternative `10(?:_\d+)+` (at least one `_\d+`). -/
def macGroupAlt1 (l : List Char) : Option (List Char) :=
  if "10".toList.isPrefixOf l then
    if (underscoreDigits (l.drop 2)).isEmpty then none
    else some ('1' :: '0' :: underscoreDigits (l.drop 2))
  else none

/-- Second group alternative `10+\.\d+`: a `1`, one or more `0`s, a
literal dot, then digits. -/
def macGroupAlt2 (l : List Char) : Option (List Char) :=
  match l with
  | '1' :: t =>
    if (takeZeros t).1.isEmpty then none
    else
      match (takeZeros t).2 with
      | '.' :: r =>
        if (takeDigits r).1.isEmpty then none
        else some ('1' :: (takeZeros t).1 ++ '.' :: (takeDigits r).1)
      | _ => none
  | _ => none

/-- The capture group `(10(?:_\d+)+|10+\.\d+)`. -/
def macGroup (l : List Char) : Option (List Char) :=
  (macGroupAlt1 l).orElse (fun _ => macGroupAlt2 l)

/-- `Mac OS X ` then the group, at the head of the subject. -/
def macTailX (l : List Char) : Option (List Char) :=
  if "Mac OS X ".toList.isPrefixOf l then macGroup (l.drop 9) else none

/-- Greedy `(?:.)*` before `Mac OS X (…)`: prefer consuming another
non-newline character, backtracking to try the tail here. -/
def macDotStarX : List Char → Option (List Char)
  | [] => macTailX []
  | c :: t =>
    ((if c != '\n' then macDotStarX t else none)).orElse (fun _ => macTailX (c :: t))

/-- Greedy `(?:.)+` before `Mac OS X (…)`: at least one character. -/
def macDotPlus : List Char → Option (List Char)
  | [] => none
  | c :: t => if c != '\n' then macDotStarX t else none

/-- Leftmost search for
`\(Macintosh(?:.)+Mac OS X (10(?:_\d+)+|10+\.\d+)` (case-sensitive). -/
def macScan : List Char → Option (List Char)
  | [] => none
  | c :: t =>
    match (if "(Macintosh".toList.isPrefixOf (c :: t) then macDotPlus ((c :: t).drop 10) else none) with
    | some cap => some cap
    | none => macScan t

/-- `operatingSystemVersions.mac_os`. -/
def macOsVersion (ua : String) : String :=
  match macScan ua.toList with
  | some cap => String.mk (underscoresToDots cap)
  | none => ""

/-! ### getOperatingSystem -/

/-- Replace the first space by an underscore (JavaScript
`replace(' ', '_')` substitutes only the first occurrence). -/
def replaceFirstSpace : List Char → List Char
  | [] => []
  | c :: t => if c = ' ' then '_' :: t else c :: replaceFirstSpace t

/-- `slugify`: lower-case, then replace the first space. -/
def slugify (s : String) : String :=
  String.mk (replaceFirstSpace (lower s.toList))

/-- The `operatingSystemVersions` object: version extractors keyed by
OS slug. -/
def operatingSystemVersions (slug : String) : Option (String → String) :=
  if slug = "android" then some androidVersion
  else if slug = "ios" then some iosVersion
  else if slug = "chrome_os" then some chromeOsVersion
  else if slug = "mac_os" then some macOsVersion
  else none

/-- `{ name, version }` as returned by `getOperatingSystem`. -/
structure OSIdentity where
  name : String
  version : String
deriving DecidableEq

/-- The matched OS label, defaulting to `unknown`
(`name = name || 'unknown'`). -/
def osName (ua : String) : String :=
  (testUserAgent commonOperatingSystems ua).getD "unknown"

/-- `getOperatingSystem()`: first-match OS label plus the version from
the slug-keyed extractor when one exists.  The source memoizes the
result in `cache`; the user agent is immutable for the process, so the
cached call always returns this value. -/
def getOperatingSystem (ua : String) : OSIdentity :=
  { name := osName ua,
    version :=
      match operatingSystemVersions (slugify (osName ua)) with
      | some f => f ua
      | none => "" }

/-! ### Device-class predicates

Each `isX` in the source computes a deterministic function of the
process-immutable user agent (plus `navigator.maxTouchPoints` for
`isIpadOs`) and memoizes it in `cache`; the memoized call always
yields the value of the function embedded here.  The order-sensitive
memoization of `isMobile`/`isDesktop` is modelled explicitly below. -/

/-- `/iP(hone|od|ad)/.test(userAgent)` — case-sensitive. -/
def isIos (ua : String) : Bool :=
  containsSub ua.toList "iPhone".toList || containsSub ua.toList "iPod".toList
    || containsSub ua.toList "iPad".toList

/-- `/iPhone/.test(userAgent)` -/
def isIphone (ua : String) : Bool := containsSub ua.toList "iPhone".toList

/-- `/Android/.test(userAgent)` — case-sensitive. -/
def isAndroid (ua : String) : Bool := containsSub ua.toList "Android".toList

/-- `/webOS/.test(userAgent)` -/
def isWebOS (ua : String) : Bool := containsSub ua.toList "webOS".toList

/-- `/Blackberry|BB10/.test(userAgent)` — case-sensitive, with a
lower-case `b` in `Blackberry`, unlike the OS table's
`/BlackBerry|BB10/i`. -/
def isBlackberry (ua : String) : Bool :=
  containsSub ua.toList "Blackberry".toList || containsSub ua.toList "BB10".toList

/-- `/IEMobile/.test(userAgent)` -/
def isWindowsMobile (ua : String) : Bool := containsSub ua.toList "IEMobile".toList

/-- `getOperatingSystem().name.indexOf('Amazon OS') > -1` -/
def isKindle (ua : String) : Bool :=
  containsSub (getOperatingSystem ua).name.toList "Amazon OS".toList

/-- `getOperatingSystem().name.indexOf('Fire OS') > -1` -/
def isKindleFire (ua : String) : Bool :=
  containsSub (getOperatingSystem ua).name.toList "Fire OS".toList

/-- `getOperatingSystem().name.indexOf('Mac') > -1` -/
def isMacOs (ua : String) : Bool :=
  containsSub (getOperatingSystem ua).name.toList "Mac".toList

/-- `isMacOs() && (!!navigator.maxTouchPoints && navigator.maxTouchPoints === 5)`.
`navigator.maxTouchPoints` is the host-reported touch-point count,
`none` when the property is unavailable (undefined is falsy, as is 0). -/
def isIpadOs (ua : String) (touchPoints : Option Int) : Bool :=
  isMacOs ua &&
    (match touchPoints with
     | none => false
     | some n => (n != 0) && (n == 5))

/-- `isMobile()`: the or-chain over the mobile predicates. -/
def isMobile (ua : String) (touchPoints : Option Int) : Bool :=
  isAndroid ua || isIos ua || isIpadOs ua touchPoints || isKindleFire ua
    || isKindle ua || isBlackberry ua || isWindowsMobile ua || isWebOS ua

/-- `isDesktop()`: the logical NOT of `isMobile()`. -/
def isDesktop (ua : String) (touchPoints : Option Int) : Bool :=
  !isMobile ua touchPoints

/-- The slots of the `cache` object relevant to the
`isMobile`/`isDesktop` pair; `none` models an absent key. -/
structure EnvCache where
  isMobileSlot : Option Bool
  isDesktopSlot : Option Bool
deriving DecidableEq

/-- The cache at startup: `const cache = {}`. -/
def emptyCache : EnvCache := ⟨none, none⟩

/-- The memoized `isMobile()` call: `if (!cache.isMobile)` recomputes
when the slot is absent or holds `false`, then returns the slot. -/
def isMobileCached (ua : String) (touchPoints : Option Int) (st : EnvCache) : Bool × EnvCache :=
  if st.isMobileSlot = some true then (true, st)
  else (isMobile ua touchPoints, { st with isMobileSlot := some (isMobile ua touchPoints) })

/-- The memoized `isDesktop()` call; its recomputation invokes the
memoized `isMobile()`, mutating that slot too. -/
def isDesktopCached (ua : String) (touchPoints : Option Int) (st : EnvCache) : Bool × EnvCache :=
  if st.isDesktopSlot = some true then (true, st)
  else
    (!(isMobileCached ua touchPoints st).1,
     { (isMobileCached ua touchPoints st).2 with
        isDesktopSlot := some (!(isMobileCached ua touchPoints st).1) })

/-! ### Density predicates -/

/-- Host-reported media capabilities used by `isRetina`:
`window.matchMedia` availability, the two retina-threshold query
results, and `window.devicePixelRatio` (`none` when unavailable). -/
structure MediaEnv where
  matchMediaAvailable : Bool
  retinaResQuery : Bool
  retinaDprQuery : Bool
  devicePixelRatioVal : Option ℚ
deriving DecidableEq

/-- `pixelRatio()`: `window.devicePixelRatio || 1.0`. -/
def pixelRatioVal (e : MediaEnv) : ℚ := e.devicePixelRatioVal.getD 1

/-- `/(iPad|iPhone|iPod)/g.test(userAgent$1)` — the Apple
tablet/phone restriction of `isRetina`. -/
def appleMobileTest (ua : String) : Bool :=
  containsSub ua.toList "iPad".toList || containsSub ua.toList "iPhone".toList
    || containsSub ua.toList "iPod".toList

/-- `isRetina()`: (media queries report retina OR pixel ratio at
least 2) AND the user agent matches the Apple tablet/phone pattern. -/
def isRetina (e : MediaEnv) (ua : String) : Bool :=
  ((e.matchMediaAvailable && (e.retinaResQuery || e.retinaDprQuery))
      || decide (pixelRatioVal e ≥ 2))
    && appleMobileTest ua

/-! ### Viewport tracker and breakpoints -/

/-- One live measurement of the host geometry: the two width sources
(`html.clientWidth`, `window.innerWidth`) and the two height sources. -/
structure Measurement where
  clientWidth : Int
  innerWidth : Int
  clientHeight : Int
  innerHeight : Int
deriving DecidableEq

/-- The cached viewport record; the source field `aspectRatio`
(width / height, float division) is the rational `aspectRatioVal`. -/
structure Viewport where
  width : Int
  height : Int
  aspectRatioVal : ℚ
deriving DecidableEq

/-- The viewport built by `setViewport` from one measurement:
`width = Math.max(html.clientWidth, window.innerWidth)`, height
analogously, `aspectRatio = width / height`. -/
def mkViewport (m : Measurement) : Viewport :=
  { width := max m.clientWidth m.innerWidth,
    height := max m.clientHeight m.innerHeight,
    aspectRatioVal := (max m.clientWidth m.innerWidth : ℚ) / (max m.clientHeight m.innerHeight : ℚ) }

/-- `setViewport()`: overwrite `cachedViewport` with a fresh
measurement, discarding any previous value. -/
def setViewport (m : Measurement) (_old : Option Viewport) : Option Viewport :=
  some (mkViewport m)

/-- `getViewport()`: return the cached viewport, measuring once if it
is absent. -/
def getViewport (m : Measurement) (st : Option Viewport) : Viewport :=
  match st with
  | none => mkViewport m
  | some v => v

/-- The `breakpoints` constant object. -/
structure Breakpoints where
  xxsmall : Int
  xsmall : Int
  small : Int
  medium : Int
  large : Int
  xlarge : Int
  xxlarge : Int

/-- `breakpoints` values from the source. -/
def breakpoints : Breakpoints := ⟨320, 480, 600, 740, 1024, 1150, 1440⟩

/-- `Object.keys(breakpoints)` in insertion order, paired with the
threshold widths. -/
def breakpointList : List (String × Int) :=
  [("xxsmall", breakpoints.xxsmall),
   ("xsmall", breakpoints.xsmall),
   ("small", breakpoints.small),
   ("medium", breakpoints.medium),
   ("large", breakpoints.large),
   ("xlarge", breakpoints.xlarge),
   ("xxlarge", breakpoints.xxlarge)]

/-- One entry of `getBreakpoints()`: `{width, name, active}`. -/
structure BreakpointStatus where
  width : Int
  name : String
  active : Bool
deriving DecidableEq

/-- `getBreakpoints()`: every named threshold with
`active = (viewport width >= threshold)`. -/
def getBreakpoints (m : Measurement) (st : Option Viewport) : List BreakpointStatus :=
  breakpointList.map (fun p => ⟨p.2, p.1, decide ((getViewport m st).width ≥ p.2)⟩)

/-- Look up one breakpoint entry by name and report its
active flag. -/
def bpActive (m : Measurement) (st : Option Viewport) (name : String) : Option Bool :=
  ((getBreakpoints m st).find? (fun b => b.name == name)).map (fun b => b.active)

/-- `getAspectRatio()` reading the current viewport. -/
def getAspectRatioVal (m : Measurement) (st : Option Viewport) : ℚ :=
  (getViewport m st).aspectRatioVal

/-- `isLandscape()`: aspect ratio above 1. -/
def isLandscape (m : Measurement) (st : Option Viewport) : Bool :=
  decide (getAspectRatioVal m st > 1)

/-- `isPortrait()`: the negation of `isLandscape()`. -/
def isPortrait (m : Measurement) (st : Option Viewport) : Bool :=
  !isLandscape m st

/-- `isWideScreen()`: aspect ratio above `breakpoints.xxlarge / 1029`. -/
def isWideScreen (m : Measurement) (st : Option Viewport) : Bool :=
  decide (getAspectRatioVal m st > (breakpoints.xxlarge : ℚ) / 1029)

/-- `isSmallScreen()`: viewport width at most the medium breakpoint. -/
def isSmallScreen (m : Measurement) (st : Option Viewport) : Bool :=
  decide ((getViewport m st).width ≤ breakpoints.medium)

/-- `isLargeScreen()`: viewport width at least the xlarge breakpoint. -/
def isLargeScreen (m : Measurement) (st : Option Viewport) : Bool :=
  decide ((getViewport m st).width ≥ breakpoints.xlarge)

/-! ### Concrete inputs used by the claims -/

/-- The iPhone user agent quoted in the source's own comment. -/
def iphoneUA : String :=
  "Mozilla/5.0 (iPhone; CPU iPhone OS 10_3_1 like Mac OS X) AppleWebKit/603.1.30 (KHTML, like Gecko) Version/10.0 Mobile/14E304 Safari/602.1"

/-- An Android-based Kindle Fire user agent: matches both the generic
Android rule and the Fire OS rule's `(?:Android|Linux).+KF[A-Z]{2,}`
alternative. -/
def kindleFireUA : String := "Linux; Android 9; KFMAWI"

/-- A user agent containing `BlackBerry` in the table's
capitalization, without `BB10`. -/
def blackBerryUA : String := "BlackBerry9700"

/-- A Mac OS user agent (platform token of the source's own comment
example). -/
def macUA : String := "Macintosh; Intel Mac OS X 10_14_4"

/-- A desktop user agent with no Apple-mobile token. -/
def genericUA : String := "Mozilla/5.0 (Windows NT 10.0; Win64; x64)"

/-- A media environment with `matchMedia` unavailable and a device
pixel ratio of 2.0. -/
def retinaEnvNoMedia : MediaEnv := ⟨false, false, false, some 2⟩

/-- A measurement yielding viewport width 600, height 800. -/
def m600 : Measurement := ⟨600, 600, 800, 800⟩

/-- A measurement yielding viewport width 800, height 800. -/
def m800 : Measurement := ⟨800, 800, 800, 800⟩

/-! ## Theorems -/

/-- Helper: the first-match scan over a rule list returns no-match
when every rule's pattern rejects the subject. -/
theorem testUserAgent_none_of_all (ua : String) (l : List (String × (String → Bool)))
    (h : ∀ p ∈ l, p.2 ua = false) : testUserAgent l ua = none := by
  induction l with
  | nil => rfl
  | cons hd tl ih =>
    obtain ⟨n, pat⟩ := hd
    have h1 : pat ua = false := h (n, pat) (List.mem_cons_self _ _)
    have h2 : ∀ p ∈ tl, p.2 ua = false := fun p hp => h p (List.mem_cons_of_mem _ hp)
    simp [testUserAgent, h1, ih h2]

/-- Helper: any breakpoint threshold that the viewport width reaches
yields an active entry in `getBreakpoints`. -/
theorem breakpointActive_of_le (v2 : Viewport) (mr : Measurement) (nm : String) (w : Int)
    (hmem : (nm, w) ∈ breakpointList) (hw : w ≤ v2.width) :
    ∃ bs2 ∈ getBreakpoints mr (some v2), bs2.name = nm ∧ bs2.width = w ∧ bs2.active = true := by
  refine ⟨⟨w, nm, decide ((getViewport mr (some v2)).width ≥ w)⟩, ?_, rfl, rfl, ?_⟩
  · exact List.mem_map.mpr ⟨(nm, w), hmem, rfl⟩
  · simp only [getViewport]
    simpa using hw

/-- Claim C1, counterexample: the user agent
`Linux; Android 9; KFMAWI` matches both the Fire OS pattern and the
generic Android pattern, yet `getOperatingSystem()` names it
`Android`, not `Fire OS`, and `isKindleFire()` is false — because in
the ordered table the Android rule (index 1) precedes the Fire OS
rule (index 4), contrary to the claim. -/
theorem c1_fireOS_counterexample :
    androidPat kindleFireUA = true ∧
    fireOSPat kindleFireUA = true ∧
    ¬((getOperatingSystem kindleFireUA).name = "Fire OS") ∧
    (getOperatingSystem kindleFireUA).name = "Android" ∧
    isKindleFire kindleFireUA = false ∧
    (commonOperatingSystems.map Prod.fst).indexOf "Android" = 1 ∧
    (commonOperatingSystems.map Prod.fst).indexOf "Fire OS" = 4 := by
  decide

/-- Claim C1, amended: in the ordered OS rule table the generic
Android rule (index 1) precedes the Fire OS rule (index 4), so for
every user-agent string that matches both patterns (and not the
earlier iOS rule), `getOperatingSystem()` returns name `Android`
(first match wins), and consequently `isKindleFire()` is false for
such a user agent. -/
theorem c1_androidPrecedesFireOS (ua : String)
    (hIos : iOSPat ua = false) (hAndroid : androidPat ua = true)
    (_hFire : fireOSPat ua = true) :
    (getOperatingSystem ua).name = "Android" ∧ isKindleFire ua = false := by
  have hname : osName ua = "Android" := by
    unfold osName
    simp [commonOperatingSystems, testUserAgent, hIos, hAndroid]
  have hname2 : (getOperatingSystem ua).name = "Android" := hname
  refine ⟨hname2, ?_⟩
  unfold isKindleFire
  rw [hname2]
  decide

/-- Witness for C1's amended theorem at the concrete Kindle Fire
user agent. -/
theorem c1_androidPrecedesFireOS_witness :
    iOSPat kindleFireUA = false ∧ androidPat kindleFireUA = true ∧
    fireOSPat kindleFireUA = true ∧
    (getOperatingSystem kindleFireUA).name = "Android" ∧
    isKindleFire kindleFireUA = false :=
  ⟨by decide, by decide, by decide,
   (c1_androidPrecedesFireOS kindleFireUA (by decide) (by decide) (by decide)).1,
   (c1_androidPrecedesFireOS kindleFireUA (by decide) (by decide) (by decide)).2⟩

/-- Claim C2: `isMobile()` and `isDesktop()` are complementary for
every user agent (and touch-point report): `isDesktop` is the
negation of `isMobile`, exactly one of the two is true, and under the
source's memoization this holds from the startup cache in either
first-call order. -/
theorem c2_mobileDesktopComplementary (ua : String) (tp : Option Int) :
    (isDesktop ua tp = !isMobile ua tp) ∧
    ((isMobile ua tp = true ∧ isDesktop ua tp = false) ∨
      (isMobile ua tp = false ∧ isDesktop ua tp = true)) ∧
    (isDesktopCached ua tp (isMobileCached ua tp emptyCache).2).1
      = !(isMobileCached ua tp emptyCache).1 ∧
    (isMobileCached ua tp (isDesktopCached ua tp emptyCache).2).1
      = !(isDesktopCached ua tp emptyCache).1 := by
  cases h : isMobile ua tp <;>
    simp [isDesktop, isMobileCached, isDesktopCached, emptyCache, h]

/-- Claim C3: after an invocation of `setViewport`, every
viewport-derived predicate computes its result from the newly
measured viewport (none of them is cached in the source), so after
two successive measurements each predicate equals its defining
comparison applied to the most recent one. -/
theorem c3_predicatesFreshAfterSetViewport (m1 m2 mr : Measurement) (st : Option Viewport) :
    isLandscape mr (setViewport m2 (setViewport m1 st))
      = decide ((mkViewport m2).aspectRatioVal > 1) ∧
    isPortrait mr (setViewport m2 (setViewport m1 st))
      = !decide ((mkViewport m2).aspectRatioVal > 1) ∧
    isWideScreen mr (setViewport m2 (setViewport m1 st))
      = decide ((mkViewport m2).aspectRatioVal > (breakpoints.xxlarge : ℚ) / 1029) ∧
    isSmallScreen mr (setViewport m2 (setViewport m1 st))
      = decide ((mkViewport m2).width ≤ breakpoints.medium) ∧
    isLargeScreen mr (setViewport m2 (setViewport m1 st))
      = decide ((mkViewport m2).width ≥ breakpoints.xlarge) :=
  ⟨rfl, rfl, rfl, rfl, rfl⟩

/-- Claim C4, counterexample: at viewport width 600, height 800, the
breakpoint entry named `medium` is NOT active (the medium threshold
is 740; width 600 is the `small` threshold exactly), contradicting
the claimed `medium.active = true`. -/
theorem c4_mediumBreakpoint_counterexample :
    ¬(isSmallScreen m600 (setViewport m600 none) = true ∧
      isLargeScreen m600 (setViewport m600 none) = false ∧
      bpActive m600 (setViewport m600 none) "medium" = some true ∧
      bpActive m600 (setViewport m600 none) "large" = some false) := by
  decide

/-- Claim C4, amended: when the current viewport has width 600 and
height 800, `isSmallScreen()` is true and `isLargeScreen()` is false;
width 600 is the `small` breakpoint exactly, so in `getBreakpoints()`
the entry named `small` is active while `medium` and `large` are
not. -/
theorem c4_width600Classification :
    isSmallScreen m600 (setViewport m600 none) = true ∧
    isLargeScreen m600 (setViewport m600 none) = false ∧
    bpActive m600 (setViewport m600 none) "small" = some true ∧
    bpActive m600 (setViewport m600 none) "medium" = some false ∧
    bpActive m600 (setViewport m600 none) "large" = some false := by
  decide

/-- Claim C5: a user agent matching no rule of the OS table yields
`{name: 'unknown', version: ''}`; the no-match result is an explicit
absent value and the name-derived classifiers all degrade to false. -/
theorem c5_unknownOnNoMatch (ua : String) (tp : Option Int)
    (h : ∀ p ∈ commonOperatingSystems, p.2 ua = false) :
    getOperatingSystem ua = ⟨"unknown", ""⟩ ∧
    osName ua = "unknown" ∧
    isKindle ua = false ∧ isKindleFire ua = false ∧ isMacOs ua = false ∧
    isIpadOs ua tp = false := by
  have hn : testUserAgent commonOperatingSystems ua = none :=
    testUserAgent_none_of_all ua _ h
  have hname : osName ua = "unknown" := by
    unfold osName
    rw [hn]
    rfl
  have hname2 : (getOperatingSystem ua).name = "unknown" := hname
  have hos : getOperatingSystem ua = ⟨"unknown", ""⟩ := by
    unfold getOperatingSystem
    rw [hname]
    rfl
  have hmac : isMacOs ua = false := by
    unfold isMacOs
    rw [hname2]
    decide
  refine ⟨hos, hname, ?_, ?_, hmac, ?_⟩
  · unfold isKindle
    rw [hname2]
    decide
  · unfold isKindleFire
    rw [hname2]
    decide
  · unfold isIpadOs
    rw [hmac]
    simp

/-- Witness for C5 at the empty string, which matches no rule. -/
theorem c5_unknownOnNoMatch_witness :
    getOperatingSystem "" = ⟨"unknown", ""⟩ ∧
    osName "" = "unknown" ∧
    isKindle "" = false ∧ isKindleFire "" = false ∧ isMacOs "" = false ∧
    isIpadOs "" (some 5) = false :=
  c5_unknownOnNoMatch "" (some 5) (by decide)

/-- Claim C6: for the iPhone user agent containing
`iPhone; CPU iPhone OS 10_3_1 like Mac OS X`, `getOperatingSystem()`
returns `{name: 'iOS', version: '10.3.1'}` (underscores normalized to
dots), and `isIos`, `isIphone`, `isMobile` are true while `isDesktop`
is false, whatever the touch-point report. -/
theorem c6_iphoneClassification (tp : Option Int) :
    getOperatingSystem iphoneUA = ⟨"iOS", "10.3.1"⟩ ∧
    isIos iphoneUA = true ∧
    isIphone iphoneUA = true ∧
    isMobile iphoneUA tp = true ∧
    isDesktop iphoneUA tp = false := by
  have hIos : isIos iphoneUA = true := by decide
  have hm : isMobile iphoneUA tp = true := by
    unfold isMobile
    rw [hIos]
    simp
  refine ⟨by decide, hIos, by decide, hm, ?_⟩
  unfold isDesktop
  rw [hm]
  rfl

/-- Claim C7: `isIpadOs()` is true exactly when `isMacOs()` is true
and the host-reported touch-point count is exactly 5; an unavailable
or zero count gives false.  At a Mac OS user agent, count 5 yields
iPadOS and mobile, count 0 yields desktop. -/
theorem c7_ipadOsHeuristic (ua : String) (tp : Option Int) :
    (isIpadOs ua tp = true ↔ (isMacOs ua = true ∧ tp = some 5)) ∧
    isIpadOs ua none = false ∧
    isIpadOs ua (some 0) = false ∧
    isMacOs macUA = true ∧
    isIpadOs macUA (some 5) = true ∧
    isMobile macUA (some 5) = true ∧
    isIpadOs macUA (some 0) = false ∧
    isMobile macUA (some 0) = false ∧
    isDesktop macUA (some 0) = true := by
  refine ⟨?_, ?_, ?_, by decide, by decide, by decide, by decide, by decide, by decide⟩
  · unfold isIpadOs
    cases tp with
    | none => simp
    | some n =>
      cases h : isMacOs ua
      · simp [h]
      · simp only [h, Bool.true_and, Bool.and_eq_true, bne_iff_ne, ne_eq, beq_iff_eq,
          Option.some.injEq, true_and]
        omega
  · unfold isIpadOs
    simp
  · unfold isIpadOs
    simp

/-- Witness for C7's biconditional at the concrete Mac OS user agent
with touch-point count 5. -/
theorem c7_ipadOsHeuristic_witness :
    isMacOs macUA = true ∧ (some 5 : Option Int) = some 5 :=
  (c7_ipadOsHeuristic macUA (some 5)).1.mp (by decide)

/-- Claim C8: `isRetina()` is true only when the user agent matches
the Apple tablet/phone pattern; with media queries unavailable and a
device pixel ratio of 2.0, a user agent containing `iPad` yields
true, while a user agent with no Apple-mobile token yields false
although the density threshold is met. -/
theorem c8_retinaAppleOnly (e : MediaEnv) (ua : String) :
    (isRetina e ua = true → appleMobileTest ua = true) ∧
    isRetina retinaEnvNoMedia "iPad" = true ∧
    isRetina retinaEnvNoMedia genericUA = false := by
  refine ⟨?_, by decide, by decide⟩
  intro h
  unfold isRetina at h
  simp only [Bool.and_eq_true] at h
  exact h.2

/-- Witness for C8's implication at the retina iPad environment. -/
theorem c8_retinaAppleOnly_witness : appleMobileTest "iPad" = true :=
  (c8_retinaAppleOnly retinaEnvNoMedia "iPad").1 (by decide)

/-- Claim C9: breakpoint activation is monotonic in viewport width:
if one viewport is narrower than another, every breakpoint entry
active for the narrower one is (same name, same threshold) active for
the wider one. -/
theorem c9_breakpointsMonotone (v1 v2 : Viewport) (mr : Measurement)
    (h : v1.width < v2.width) :
    ∀ bs ∈ getBreakpoints mr (some v1), bs.active = true →
      ∃ bs2 ∈ getBreakpoints mr (some v2),
        bs2.name = bs.name ∧ bs2.width = bs.width ∧ bs2.active = true := by
  intro bs hbs hact
  simp only [getBreakpoints, getViewport, breakpointList, List.map_cons, List.map_nil,
    List.mem_cons, List.not_mem_nil, or_false] at hbs
  rcases hbs with rfl | rfl | rfl | rfl | rfl | rfl | rfl
  · refine breakpointActive_of_le v2 mr "xxsmall" breakpoints.xxsmall (by decide) ?_
    have h1 := of_decide_eq_true
      (show decide (v1.width ≥ breakpoints.xxsmall) = true from hact)
    omega
  · refine breakpointActive_of_le v2 mr "xsmall" breakpoints.xsmall (by decide) ?_
    have h1 := of_decide_eq_true
      (show decide (v1.width ≥ breakpoints.xsmall) = true from hact)
    omega
  · refine breakpointActive_of_le v2 mr "small" breakpoints.small (by decide) ?_
    have h1 := of_decide_eq_true
      (show decide (v1.width ≥ breakpoints.small) = true from hact)
    omega
  · refine breakpointActive_of_le v2 mr "medium" breakpoints.medium (by decide) ?_
    have h1 := of_decide_eq_true
      (show decide (v1.width ≥ breakpoints.medium) = true from hact)
    omega
  · refine breakpointActive_of_le v2 mr "large" breakpoints.large (by decide) ?_
    have h1 := of_decide_eq_true
      (show decide (v1.width ≥ breakpoints.large) = true from hact)
    omega
  · refine breakpointActive_of_le v2 mr "xlarge" breakpoints.xlarge (by decide) ?_
    have h1 := of_decide_eq_true
      (show decide (v1.width ≥ breakpoints.xlarge) = true from hact)
    omega
  · refine breakpointActive_of_le v2 mr "xxlarge" breakpoints.xxlarge (by decide) ?_
    have h1 := of_decide_eq_true
      (show decide (v1.width ≥ breakpoints.xxlarge) = true from hact)
    omega

/-- Witness for C9 at widths 600 < 800 and the `xxsmall` entry. -/
theorem c9_breakpointsMonotone_witness :
    ∃ bs2 ∈ getBreakpoints m600 (some (mkViewport m800)),
      bs2.name = "xxsmall" ∧ bs2.width = 320 ∧ bs2.active = true :=
  c9_breakpointsMonotone (mkViewport m600) (mkViewport m800) m600 (by decide)
    ⟨320, "xxsmall", true⟩ (by decide) (by decide)

/-- Claim C10: there is a user agent containing `BlackBerry` (and not
`BB10`) that the case-insensitive OS table names `BlackBerry OS`
while the case-sensitive device regex `isBlackberry` rejects it, so
`isMobile()` is false and `isDesktop()` is true for it. -/
theorem c10_blackBerryCaseMismatch :
    ∃ ua : String,
      containsSub ua.toList "BlackBerry".toList = true ∧
      containsSub ua.toList "BB10".toList = false ∧
      (getOperatingSystem ua).name = "BlackBerry OS" ∧
      isBlackberry ua = false ∧
      ∀ tp : Option Int, isMobile ua tp = false ∧ isDesktop ua tp = true := by
  refine ⟨blackBerryUA, by decide, by decide, by decide, by decide, ?_⟩
  intro tp
  have hmac : isMacOs blackBerryUA = false := by decide
  have hm : isMobile blackBerryUA tp = false := by
    unfold isMobile isIpadOs
    rw [hmac]
    simp only [Bool.false_and]
    decide
  refine ⟨hm, ?_⟩
  unfold isDesktop
  rw [hm]
  rfl

end GailAlbert
